import Mathlib

/-!
Shallow embedding of the DDE weather-data pipeline (data_collector.py,
data_analyzer.py, data_quality.py, data_visualizer.py, chart_generator.py,
main.py) and proofs about its specified behaviour.

Modelling conventions:
* SQLite REAL columns are modelled as `ℚ`; nullable columns as `Option ℚ`.
* Date / hour strings coming from the API are ISO formatted, and ISO strings
  compare lexicographically exactly as chronologically, so dates and hours are
  modelled as `ℕ` ordered chronologically.
* SQL aggregates (`COUNT`, `AVG`, `MIN`, `MAX`, `SUM`) skip NULLs and return
  NULL on an empty set of non-NULL inputs, as in SQLite.
* Python truthiness: in guards such as `if max_t and min_t`, a value that is
  `None` or equal to `0` is falsy.  The embedding spells this out as
  `v ≠ 0` conjuncts after matching away `none`.
* Log messages and formatted strings are I/O and are not modelled; where a
  message carries data (an outlier value, an invalid-row count) the embedding
  keeps the datum itself.
-/

/-- A row of the `weather_current` table (`data_collector.py:_init_db`).
`city` is `TEXT UNIQUE`; the remaining columns are nullable. -/
structure CurrentRow where
  city : String
  temperature : Option ℚ
  humidity : Option ℚ
  wind_speed : Option ℚ
  collected_at : String
  deriving Repr, DecidableEq

/-- A row of the `weather_daily` table: one (city, date) forecast row,
appended with no uniqueness constraint. -/
structure DailyRow where
  city : String
  date : ℕ
  temp_max : Option ℚ
  temp_min : Option ℚ
  precipitation : Option ℚ
  collected_at : String
  deriving Repr, DecidableEq

/-- A row of the `weather_hourly` table: one (city, hour) forecast row,
appended with no uniqueness constraint. -/
structure HourlyRow where
  city : String
  hour : ℕ
  temperature : Option ℚ
  collected_at : String
  deriving Repr, DecidableEq

/-- The persistent store created by `DataCollector._init_db`: the three
tables of the SQLite database, each as its list of rows in rowid order. -/
structure Store where
  weather_current : List CurrentRow
  weather_daily : List DailyRow
  weather_hourly : List HourlyRow
  deriving Repr, DecidableEq

/-- The store right after `_init_db` on a fresh database: three empty tables. -/
def emptyStore : Store := ⟨[], [], []⟩

/-- SQLite `ROUND(x, 1)`: round to one decimal, halves away from zero. -/
def round1 (q : ℚ) : ℚ :=
  if 0 ≤ q then (⌊q * 10 + 1/2⌋ : ℚ) / 10 else -((⌊-q * 10 + 1/2⌋ : ℚ) / 10)

/-- SQL `MIN` over the non-NULL values of a group (NULL on empty input). -/
def sqlMin : List ℚ → Option ℚ
  | [] => none
  | x :: xs => some (xs.foldl min x)

/-- SQL `MAX` over the non-NULL values of a group (NULL on empty input). -/
def sqlMax : List ℚ → Option ℚ
  | [] => none
  | x :: xs => some (xs.foldl max x)

/-- SQL `AVG` over the non-NULL values of a group (NULL on empty input). -/
def sqlAvg (l : List ℚ) : Option ℚ :=
  match l with
  | [] => none
  | _ => some (l.sum / l.length)

/-- The distinct values of the `city` column, as produced by `GROUP BY city`
(one group per distinct city; the group order is not relied upon). -/
def groupCities (cities : List String) : List String := cities.dedup

/-- The rows of `weather_current` belonging to one city (one `GROUP BY city`
group). -/
def currentRowsOf (s : Store) (c : String) : List CurrentRow :=
  s.weather_current.filter (fun r => r.city = c)

/-- The rows of `weather_daily` belonging to one city. -/
def dailyRowsOf (s : Store) (c : String) : List DailyRow :=
  s.weather_daily.filter (fun r => r.city = c)

/-- The cities present in `weather_current`. -/
def currentCities (s : Store) : List String :=
  groupCities (s.weather_current.map (fun r => r.city))

/-- The cities present in `weather_daily`. -/
def dailyCities (s : Store) : List String :=
  groupCities (s.weather_daily.map (fun r => r.city))

/-! ## Collector (`data_collector.py`) -/

/-- The `current` object of a successful API response: the three requested
current-condition metrics, each possibly missing (`dict.get` yields `None`). -/
structure CurrentData where
  temperature_2m : Option ℚ
  relative_humidity_2m : Option ℚ
  wind_speed_10m : Option ℚ
  deriving Repr, DecidableEq

/-- The `daily` object of a successful API response: parallel arrays keyed by
`time`; the metric arrays may be shorter than `time` and may hold nulls. -/
structure DailyData where
  time : List ℕ
  temperature_2m_max : List (Option ℚ)
  temperature_2m_min : List (Option ℚ)
  precipitation_sum : List (Option ℚ)
  deriving Repr, DecidableEq

/-- The `hourly` object of a successful API response. -/
structure HourlyData where
  time : List ℕ
  temperature_2m : List (Option ℚ)
  deriving Repr, DecidableEq

/-- One successfully collected city payload, as built by
`DataCollector.fetch_city_weather`: the city name, the decoded JSON body
(whose `current` / `daily` / `hourly` keys may each be absent), and the
collection timestamp. -/
structure CityPayload where
  city : String
  current : Option CurrentData
  daily : Option DailyData
  hourly : Option HourlyData
  collected_at : String
  deriving Repr, DecidableEq

/-- `arr[i] if i < len(arr) else None` for a nullable array element
(`data_collector.py:_save_to_db`). -/
def getOrNone (l : List (Option ℚ)) (i : ℕ) : Option ℚ := (l.getD i none)

/-- `INSERT OR REPLACE INTO weather_current`: the `city` column is `UNIQUE`,
so any existing row of the same city is deleted and the new row inserted. -/
def upsertCurrent (row : CurrentRow) (tbl : List CurrentRow) : List CurrentRow :=
  tbl.filter (fun r => r.city ≠ row.city) ++ [row]

/-- The daily rows generated for one payload: one `INSERT INTO weather_daily`
per entry of `daily['time']`, null-filling short metric arrays. -/
def dailyRowsFor (city : String) (collected_at : String) (d : DailyData) : List DailyRow :=
  (List.range d.time.length).map (fun i =>
    ⟨city, d.time.getD i 0,
      getOrNone d.temperature_2m_max i,
      getOrNone d.temperature_2m_min i,
      getOrNone d.precipitation_sum i,
      collected_at⟩)

/-- The hourly rows generated for one payload: one `INSERT INTO weather_hourly`
per entry of `hourly['time']`. -/
def hourlyRowsFor (city : String) (collected_at : String) (h : HourlyData) : List HourlyRow :=
  (List.range h.time.length).map (fun i =>
    ⟨city, h.time.getD i 0, getOrNone h.temperature_2m i, collected_at⟩)

/-- Saving one collected payload (the body of the loop in
`DataCollector._save_to_db`): upsert the current row if `current` is present,
append the daily rows if `daily` is present, append the hourly rows if
`hourly` is present. -/
def saveItem (s : Store) (item : CityPayload) : Store :=
  let s1 :=
    match item.current with
    | none => s
    | some cur =>
      { s with weather_current :=
          upsertCurrent ⟨item.city, cur.temperature_2m, cur.relative_humidity_2m,
            cur.wind_speed_10m, item.collected_at⟩ s.weather_current }
  let s2 :=
    match item.daily with
    | none => s1
    | some d =>
      { s1 with weather_daily :=
          s1.weather_daily ++ dailyRowsFor item.city item.collected_at d }
  match item.hourly with
  | none => s2
  | some h =>
    { s2 with weather_hourly :=
        s2.weather_hourly ++ hourlyRowsFor item.city item.collected_at h }

/-- `DataCollector._save_to_db`: save every collected payload in order. -/
def save_to_db (collected_data : List CityPayload) (s : Store) : Store :=
  collected_data.foldl saveItem s

/-- `DataCollector.collect_batch` over a response oracle `env`: each city's
request is issued exactly once (no retry); a failed or non-200 response is
`none` and is dropped from `collected`; the collected payloads are saved and
returned. A failure for one city leaves the other cities' entries untouched
(the model has no abort path). -/
def collect_batch {City : Type} (env : City → Option CityPayload)
    (cities : List City) (s : Store) : List CityPayload × Store :=
  let results := cities.map env
  let collected := results.filterMap id
  (collected, save_to_db collected s)

/-- Number of daily rows one payload contributes to `weather_daily`. -/
def dailyCountOf (item : CityPayload) : ℕ :=
  match item.daily with
  | none => 0
  | some d => d.time.length

/-- Number of hourly rows one payload contributes to `weather_hourly`. -/
def hourlyCountOf (item : CityPayload) : ℕ :=
  match item.hourly with
  | none => 0
  | some h => h.time.length

/-- The `weather_current` table never holds two rows of the same city
(the `city` column is `UNIQUE`). -/
def currentAtMostOnePerCity (s : Store) : Prop :=
  (s.weather_current.map (fun r => r.city)).Nodup

instance (s : Store) : Decidable (currentAtMostOnePerCity s) := by
  unfold currentAtMostOnePerCity; infer_instance

/-- The store states reachable through the Collector: the freshly initialised
empty store, and any state produced from a reachable one by a collection
run's `_save_to_db`. -/
inductive Reachable : Store → Prop
  | init : Reachable emptyStore
  | save (items : List CityPayload) {s : Store} :
      Reachable s → Reachable (save_to_db items s)

/-! ## Component constructors (`__init__` methods) -/

/-- The fixed default store location used throughout `main.py` and as the
constructor default of the read-side components. -/
def defaultDbPath : String := "data/weather_data.db"

/-- The state built by `DataCollector.__init__(forecast_days=10)`: its only
parameter is the horizon (clamped into [1,16]); the store path is fixed. -/
structure DataCollectorState where
  base_url : String
  forecast_days : ℤ
  db_path : String
  deriving Repr, DecidableEq

/-- `DataCollector.__init__`: note that it takes no store-path parameter and
always uses the fixed location `data/weather_data.db`. -/
def DataCollectorInit (forecast_days : ℤ := 10) : DataCollectorState :=
  { base_url := "https://api.open-meteo.com/v1/forecast"
    forecast_days := min (max forecast_days 1) 16
    db_path := "data/weather_data.db" }

structure DataAnalyzerState where
  db_path : String
  deriving Repr, DecidableEq

/-- `DataAnalyzer.__init__(db_path='data/weather_data.db')`. -/
def DataAnalyzerInit (db_path : String := defaultDbPath) : DataAnalyzerState :=
  ⟨db_path⟩

structure DataQualityState where
  db_path : String
  deriving Repr, DecidableEq

/-- `DataQuality.__init__(db_path='data/weather_data.db')`. -/
def DataQualityInit (db_path : String := defaultDbPath) : DataQualityState :=
  ⟨db_path⟩

structure DataVisualizerState where
  db_path : String
  deriving Repr, DecidableEq

/-- `DataVisualizer.__init__(db_path='data/weather_data.db')`. -/
def DataVisualizerInit (db_path : String := defaultDbPath) : DataVisualizerState :=
  ⟨db_path⟩

structure ChartGeneratorState where
  db_path : String
  deriving Repr, DecidableEq

/-- `TemperatureChartGenerator.__init__(db_path='data/weather_data.db')`. -/
def ChartGeneratorInit (db_path : String := defaultDbPath) : ChartGeneratorState :=
  ⟨db_path⟩

/-! ## Analyzer (`data_analyzer.py`) -/

/-- One entry of the per-city trends list built by
`DataAnalyzer.analyze_temperature_trends`. -/
structure TrendEntry where
  date : ℕ
  max : Option ℚ
  min : Option ℚ
  avg : Option ℚ
  deriving Repr, DecidableEq

/-- `avg_t = (max_t + min_t) / 2 if max_t and min_t else None`: Python
truthiness makes the average `None` not only when a bound is missing but also
when a bound equals `0`. -/
def trendAvg : Option ℚ → Option ℚ → Option ℚ
  | some M, some m => if M ≠ 0 ∧ m ≠ 0 then some ((M + m) / 2) else none
  | _, _ => none

/-- The trends entry built from one `weather_daily` row. -/
def trendEntryOf (r : DailyRow) : TrendEntry :=
  ⟨r.date, r.temp_max, r.temp_min, trendAvg r.temp_max r.temp_min⟩

/-- `DataAnalyzer.analyze_temperature_trends`, viewed per city: the query
`SELECT city, date, temp_max, temp_min FROM weather_daily ORDER BY city, date`
grouped into a dict keyed by city; a city's value is its rows in date order,
each mapped to a `TrendEntry`. -/
def analyze_temperature_trends (s : Store) (c : String) : List TrendEntry :=
  (List.insertionSort (fun a b : DailyRow => a.date ≤ b.date)
      (dailyRowsOf s c)).map trendEntryOf

/-- One rule-based insight (`DataAnalyzer.generate_insights`). The
human-readable message is log formatting; the embedding keeps the numeric
datum the message renders. -/
structure Insight where
  type : String
  city : String
  severity : String
  value : ℚ
  recommendation : String
  deriving Repr, DecidableEq

/-- The heat / cold insights of one `GROUP BY city` group of the first
insights query (`AVG(temp_max)`, `MIN(temp_min)` over `weather_daily`).
Both guards use Python truthiness (`if avg_max and avg_max > 25`). -/
def tempInsightsOf (c : String) (avg_max min_temp : Option ℚ) : List Insight :=
  (match avg_max with
   | some q => if q ≠ 0 ∧ 25 < q then
       [⟨"temperature", c, "HIGH", q, "Подготовить системы охлаждения"⟩] else []
   | none => []) ++
  (match min_temp with
   | some q => if q ≠ 0 ∧ q < -10 then
       [⟨"temperature", c, "HIGH", q, "Обеспечить готовность систем отопления"⟩] else []
   | none => [])

/-- The `weather_daily` rows with `precipitation > 0` (NULL precipitation is
not matched by the SQL comparison). -/
def precipRows (s : Store) : List DailyRow :=
  s.weather_daily.filter (fun r =>
    match r.precipitation with
    | some p => 0 < p
    | none => False)

/-- `DataAnalyzer.generate_insights`: the three queries in order — per-city
heat/cold insights, per-city flood-risk insights over days with
precipitation, and the global-average comparison insights. -/
def generate_insights (s : Store) : List Insight :=
  let part1 := (dailyCities s).flatMap (fun c =>
    let rows := dailyRowsOf s c
    tempInsightsOf c (sqlAvg (rows.filterMap (fun r => r.temp_max)))
      (sqlMin (rows.filterMap (fun r => r.temp_min))))
  let part2 := (groupCities ((precipRows s).map (fun r => r.city))).flatMap (fun c =>
    let totals := ((precipRows s).filter (fun r => r.city = c)).filterMap
      (fun r => r.precipitation)
    let total := totals.sum
    if total ≠ 0 ∧ 50 < total then
      [⟨"precipitation", c, "MEDIUM", total, "Мониторить риски наводнений"⟩]
    else [])
  let cities_data := (dailyCities s).map (fun c =>
    (c, sqlAvg ((dailyRowsOf s c).filterMap (fun r => r.temp_max))))
  let temps := cities_data.filterMap (fun p =>
    match p.2 with
    | some q => if q ≠ 0 then some q else none
    | none => none)
  let part3 :=
    if temps = [] then []
    else
      let avg_global := temps.sum / temps.length
      cities_data.flatMap (fun p =>
        match p.2 with
        | some q =>
          if q ≠ 0 ∧ 10 < |q - avg_global| then
            [⟨"climate_comparison", p.1, "LOW", q, "Отслеживать сезонные изменения"⟩]
          else []
        | none => [])
  part1 ++ part2 ++ part3

/-! ## Quality Checker (`data_quality.py`) -/

/-- One city's entry of the `check_completeness` result dict. -/
structure CompletenessEntry where
  total_records : ℕ
  temperature_filled : ℕ
  humidity_filled : ℕ
  wind_filled : ℕ
  completeness_percent : ℚ
  deriving Repr, DecidableEq

/-- The completeness aggregates of one `GROUP BY city` group:
`completeness_percent` is `ROUND(COUNT(temperature)*100.0/COUNT(*), 1)`. -/
def completenessEntryOf (rows : List CurrentRow) : CompletenessEntry :=
  let total := rows.length
  let temp_filled := (rows.filterMap (fun r => r.temperature)).length
  let humid_filled := (rows.filterMap (fun r => r.humidity)).length
  let wind_filled := (rows.filterMap (fun r => r.wind_speed)).length
  ⟨total, temp_filled, humid_filled, wind_filled,
    round1 ((temp_filled : ℚ) * 100 / (total : ℚ))⟩

/-- `DataQuality.check_completeness`: one entry per city present in
`weather_current`. -/
def check_completeness (s : Store) : List (String × CompletenessEntry) :=
  (currentCities s).map (fun c => (c, completenessEntryOf (currentRowsOf s c)))

/-- The status logged for a city: `"OK" if completeness >= 95 else "ВНИМАНИЕ"`,
on the rounded percentage. -/
def completenessStatus (e : CompletenessEntry) : String :=
  if 95 ≤ e.completeness_percent then "OK" else "ВНИМАНИЕ"

/-- One city's entry of the `check_outliers` result dict; an anomaly is kept
as its `type` together with its `value`. -/
structure OutlierEntry where
  records : ℕ
  avg_temp : Option ℚ
  min_temp : Option ℚ
  max_temp : Option ℚ
  temp_range : Option ℚ
  anomalies : List (String × ℚ)
  deriving Repr, DecidableEq

/-- The three outlier guards of `check_outliers`, in source order; each is a
Python `if x and x > c` (truthiness: NULL and 0 are falsy). -/
def outlierChecks (minT maxT rangeT : Option ℚ) : List (String × ℚ) :=
  (match rangeT with
   | some r => if r ≠ 0 ∧ 40 < r then [("extreme_range", r)] else []
   | none => []) ++
  (match minT with
   | some m => if m ≠ 0 ∧ m < -60 then [("extreme_cold", m)] else []
   | none => []) ++
  (match maxT with
   | some M => if M ≠ 0 ∧ 60 < M then [("extreme_heat", M)] else []
   | none => [])

/-- The outlier aggregates of one `GROUP BY city` group of `weather_current`. -/
def outlierEntryOf (rows : List CurrentRow) : OutlierEntry :=
  let temps := rows.filterMap (fun r => r.temperature)
  let minT := sqlMin temps
  let maxT := sqlMax temps
  let rangeT :=
    match sqlMax temps, sqlMin temps with
    | some M, some m => some (M - m)
    | _, _ => none
  ⟨rows.length, sqlAvg temps, minT, maxT, rangeT, outlierChecks minT maxT rangeT⟩

/-- `DataQuality.check_outliers`: one entry per city present in
`weather_current`. -/
def check_outliers (s : Store) : List (String × OutlierEntry) :=
  (currentCities s).map (fun c => (c, outlierEntryOf (currentRowsOf s c)))

/-- The `WHERE` clause of the temperature validity query:
`temperature < -50 OR temperature > 50` (a NULL temperature matches neither
comparison). The bounds come from the `validity` config dict. -/
def tempInvalid (r : CurrentRow) : Bool :=
  match r.temperature with
  | none => false
  | some t => t < -50 ∨ 50 < t

/-- The `WHERE` clause of the humidity validity query:
`humidity < 0 OR humidity > 100`. -/
def humidityInvalid (r : CurrentRow) : Bool :=
  match r.humidity with
  | none => false
  | some h => h < 0 ∨ 100 < h

/-- The single row returned by `SELECT city, COUNT(*) FROM weather_current
WHERE ...` — the query has NO `GROUP BY`, so SQLite returns exactly one row:
the total count over all matching rows, with the bare `city` column taken
from an arbitrary matching row (modelled as the last one in scan order;
NULL when nothing matches). -/
def bareAggregate (ms : List CurrentRow) : Option String × ℕ :=
  ((ms.getLast?).map (fun r => r.city), ms.length)

/-- The dict update in `check_validity` for one fetched `(city, invalid)`
row: ensure the key exists (`issues[city] = []`), then append the issue when
`invalid > 0`. An issue is kept as its field name with the reported count. -/
def addValidityIssue (issues : List (Option String × List (String × ℕ)))
    (city : Option String) (invalid : ℕ) (field : String) :
    List (Option String × List (String × ℕ)) :=
  let issues1 := if issues.any (fun p => p.1 = city) then issues
    else issues ++ [(city, [])]
  if 0 < invalid then
    issues1.map (fun p => if p.1 = city then (p.1, p.2 ++ [(field, invalid)]) else p)
  else issues1

/-- `DataQuality.check_validity`: the two aggregate queries (temperature,
humidity) each yield a single row that is folded into the issues dict.
`wind_speed` has a configured range but no query ever checks it. -/
def check_validity (s : Store) : List (Option String × List (String × ℕ)) :=
  let tempMatches := s.weather_current.filter tempInvalid
  let issues1 := addValidityIssue [] (bareAggregate tempMatches).1
    (bareAggregate tempMatches).2 "temperature"
  let humidMatches := s.weather_current.filter humidityInvalid
  addValidityIssue issues1 (bareAggregate humidMatches).1
    (bareAggregate humidMatches).2 "humidity"

/-- The per-city validity violation counts the specification describes:
out-of-range temperature rows and out-of-range humidity rows of one city.
Modelled from the spec for comparison with `check_validity`. -/
def specPerCityInvalid (s : Store) (c : String) : ℕ × ℕ :=
  (((currentRowsOf s c).filter tempInvalid).length,
   ((currentRowsOf s c).filter humidityInvalid).length)

/-- The average of the per-city completeness percentages
(`generate_quality_report`), 0 when there are no cities. -/
def avg_completeness (s : Store) : ℚ :=
  let scores := (check_completeness s).map (fun p => p.2.completeness_percent)
  if scores = [] then 0 else scores.sum / scores.length

/-- The total anomaly count across all cities (`generate_quality_report`). -/
def total_anomalies (s : Store) : ℕ :=
  ((check_outliers s).map (fun p => p.2.anomalies.length)).sum

/-- `quality_score = max(0, min(100, avg_completeness - anomaly_count * 2))`. -/
def qualityScoreFormula (avgC : ℚ) (anomaly_count : ℕ) : ℚ :=
  max 0 (min 100 (avgC - (anomaly_count : ℚ) * 2))

/-- The aggregate quality score of `DataQuality.generate_quality_report`. -/
def quality_score (s : Store) : ℚ :=
  qualityScoreFormula (avg_completeness s) (total_anomalies s)

/-! ## Helper lemmas -/

/-- A city absent from the `city` column has an empty filter group. -/
lemma filter_city_eq_nil {l : List CurrentRow} {c : String}
    (h : c ∉ l.map (fun r => r.city)) :
    l.filter (fun r => r.city = c) = [] := by
  induction l with
  | nil => rfl
  | cons x xs ih =>
    simp only [List.map_cons, List.mem_cons, not_or] at h
    simp only [List.filter_cons]
    rw [if_neg, ih h.2]
    simp [Ne.symm h.1]

/-- A city present in the `city` column has a nonempty filter group. -/
lemma filter_city_ne_nil {l : List CurrentRow} {c : String}
    (h : c ∈ l.map (fun r => r.city)) :
    l.filter (fun r => r.city = c) ≠ [] := by
  rcases List.mem_map.mp h with ⟨r, hr, hrc⟩
  exact List.ne_nil_of_mem (List.mem_filter.mpr ⟨hr, by simp [hrc]⟩)

/-- With a `Nodup` city column, a present city's filter group is exactly one
row, and that row carries the city. -/
lemma filter_city_eq_singleton {l : List CurrentRow} {c : String}
    (hd : (l.map (fun r => r.city)).Nodup) (h : c ∈ l.map (fun r => r.city)) :
    ∃ r, l.filter (fun r => r.city = c) = [r] ∧ r.city = c := by
  induction l with
  | nil => simp at h
  | cons x xs ih =>
    simp only [List.map_cons, List.nodup_cons] at hd
    simp only [List.map_cons, List.mem_cons] at h
    by_cases hx : x.city = c
    · refine ⟨x, ?_, hx⟩
      have : c ∉ xs.map (fun r => r.city) := by
        rw [← hx]; exact hd.1
      simp [List.filter_cons, hx, filter_city_eq_nil this]
    · rcases h with h | h
      · exact absurd h.symm hx
      · rcases ih hd.2 h with ⟨r, hr, hrc⟩
        exact ⟨r, by simp [List.filter_cons, hx, hr], hrc⟩

/-- Upserting keeps the city column `Nodup`. -/
lemma upsertCurrent_nodup {tbl : List CurrentRow} {row : CurrentRow}
    (h : (tbl.map (fun r => r.city)).Nodup) :
    ((upsertCurrent row tbl).map (fun r => r.city)).Nodup := by
  unfold upsertCurrent
  rw [List.map_append, List.nodup_append]
  refine ⟨(h.sublist (List.Sublist.map _ (List.filter_sublist tbl))), by simp, ?_⟩
  intro a ha
  rcases List.mem_map.mp ha with ⟨r, hr, hrc⟩
  rcases List.mem_filter.mp hr with ⟨-, hne⟩
  simp only [decide_eq_true_eq] at hne
  simpa [hrc] using hne

/-- The rows an upserted table holds for the upserted row's own city. -/
lemma upsertCurrent_lookup (row : CurrentRow) (tbl : List CurrentRow) :
    (upsertCurrent row tbl).filter (fun r => r.city = row.city) = [row] := by
  unfold upsertCurrent
  rw [List.filter_append]
  have h1 : (tbl.filter (fun r => r.city ≠ row.city)).filter
      (fun r => r.city = row.city) = [] := by
    rw [List.filter_eq_nil_iff]
    intro r hr
    rcases List.mem_filter.mp hr with ⟨-, hne⟩
    simp only [decide_eq_true_eq] at hne ⊢
    exact hne
  rw [h1]
  simp

/-- `saveItem` only ever changes `weather_current` through an upsert. -/
lemma saveItem_current (s : Store) (item : CityPayload) :
    (saveItem s item).weather_current =
      match item.current with
      | none => s.weather_current
      | some cur => upsertCurrent ⟨item.city, cur.temperature_2m,
          cur.relative_humidity_2m, cur.wind_speed_10m, item.collected_at⟩
          s.weather_current := by
  unfold saveItem
  cases item.current <;> cases item.daily <;> cases item.hourly <;> rfl

/-- `saveItem` appends exactly the payload's daily rows to `weather_daily`. -/
lemma saveItem_daily (s : Store) (item : CityPayload) :
    (saveItem s item).weather_daily =
      s.weather_daily ++
        (match item.daily with
         | none => []
         | some d => dailyRowsFor item.city item.collected_at d) := by
  unfold saveItem
  cases item.current <;> cases item.daily <;> cases item.hourly <;> simp

/-- `saveItem` appends exactly the payload's hourly rows to `weather_hourly`. -/
lemma saveItem_hourly (s : Store) (item : CityPayload) :
    (saveItem s item).weather_hourly =
      s.weather_hourly ++
        (match item.hourly with
         | none => []
         | some h => hourlyRowsFor item.city item.collected_at h) := by
  unfold saveItem
  cases item.current <;> cases item.daily <;> cases item.hourly <;> simp

/-- Saving one payload preserves the one-row-per-city invariant. -/
lemma saveItem_nodup {s : Store} (item : CityPayload)
    (h : currentAtMostOnePerCity s) : currentAtMostOnePerCity (saveItem s item) := by
  unfold currentAtMostOnePerCity at h ⊢
  rw [saveItem_current]
  cases item.current with
  | none => exact h
  | some cur => exact upsertCurrent_nodup h

/-- A whole `_save_to_db` run preserves the one-row-per-city invariant. -/
lemma save_to_db_nodup {s : Store} (items : List CityPayload)
    (h : currentAtMostOnePerCity s) : currentAtMostOnePerCity (save_to_db items s) := by
  induction items generalizing s with
  | nil => exact h
  | cons x xs ih => exact ih (saveItem_nodup x h)

/-- Daily row count after a `_save_to_db` run. -/
lemma save_to_db_daily_length (items : List CityPayload) (s : Store) :
    (save_to_db items s).weather_daily.length =
      s.weather_daily.length + (items.map dailyCountOf).sum := by
  induction items generalizing s with
  | nil => simp [save_to_db]
  | cons x xs ih =>
    show (save_to_db xs (saveItem s x)).weather_daily.length = _
    rw [ih, saveItem_daily]
    cases hx : x.daily <;>
      simp [dailyCountOf, hx, dailyRowsFor, Nat.add_assoc]

/-- Hourly row count after a `_save_to_db` run. -/
lemma save_to_db_hourly_length (items : List CityPayload) (s : Store) :
    (save_to_db items s).weather_hourly.length =
      s.weather_hourly.length + (items.map hourlyCountOf).sum := by
  induction items generalizing s with
  | nil => simp [save_to_db]
  | cons x xs ih =>
    show (save_to_db xs (saveItem s x)).weather_hourly.length = _
    rw [ih, saveItem_hourly]
    cases hx : x.hourly <;>
      simp [hourlyCountOf, hx, hourlyRowsFor, Nat.add_assoc]

/-- Every store reachable through the Collector satisfies the
one-row-per-city invariant. -/
lemma reachable_nodup {s : Store} (h : Reachable s) : currentAtMostOnePerCity s := by
  induction h with
  | init => exact List.nodup_nil
  | save items _ ih => exact save_to_db_nodup items ih

/-- A `foldl min` lands on one of its inputs. -/
lemma foldl_min_mem (xs : List ℚ) (x : ℚ) : xs.foldl min x ∈ x :: xs := by
  induction xs generalizing x with
  | nil => simp
  | cons y ys ih =>
    rw [List.foldl_cons]
    have h := ih (min x y)
    rcases List.mem_cons.mp h with h | h
    · rw [h]
      rcases min_choice x y with hm | hm <;> rw [hm] <;> simp
    · simp [h]

/-- A `foldl max` lands on one of its inputs. -/
lemma foldl_max_mem (xs : List ℚ) (x : ℚ) : xs.foldl max x ∈ x :: xs := by
  induction xs generalizing x with
  | nil => simp
  | cons y ys ih =>
    rw [List.foldl_cons]
    have h := ih (max x y)
    rcases List.mem_cons.mp h with h | h
    · rw [h]
      rcases max_choice x y with hm | hm <;> rw [hm] <;> simp
    · simp [h]

/-- `MIN` returns one of the aggregated values. -/
lemma sqlMin_mem {l : List ℚ} {m : ℚ} (h : sqlMin l = some m) : m ∈ l := by
  cases l with
  | nil => simp [sqlMin] at h
  | cons x xs =>
    simp only [sqlMin, Option.some.injEq] at h
    rw [← h]
    exact foldl_min_mem xs x

/-- `MAX` returns one of the aggregated values. -/
lemma sqlMax_mem {l : List ℚ} {m : ℚ} (h : sqlMax l = some m) : m ∈ l := by
  cases l with
  | nil => simp [sqlMax] at h
  | cons x xs =>
    simp only [sqlMax, Option.some.injEq] at h
    rw [← h]
    exact foldl_max_mem xs x

/-! ## Claim theorems -/

/-- C8: for every batch of cities, a city whose request fails or returns a
non-200 status (oracle answer `none`) is excluded from the result set without
aborting the remaining cities' requests and without any retry (each city is
consulted exactly once), and `collect_batch` returns exactly the list of
successfully collected city payloads, which is also what gets saved. -/
theorem c8_collect_batch {City : Type} (env : City → Option CityPayload)
    (cities : List City) (s : Store) :
    (collect_batch env cities s).1 = cities.filterMap env ∧
    (∀ p : CityPayload, p ∈ (collect_batch env cities s).1 ↔
      ∃ c ∈ cities, env c = some p) ∧
    (collect_batch env cities s).2 = save_to_db (cities.filterMap env) s := by
  have h1 : (collect_batch env cities s).1 = cities.filterMap env := by
    simp [collect_batch, List.filterMap_map]
  refine ⟨h1, ?_, ?_⟩
  · intro p
    rw [h1, List.mem_filterMap]
  · simp [collect_batch, List.filterMap_map]

/-- C9 counterexample: the Collector's constructor offers no way to override
the store path — every argument yields the fixed default location, so the
claim that every component constructor accepts the path as an overridable
configuration value is false for the Collector. -/
theorem c9_collector_path_counterexample :
    ¬ ∃ d : ℤ, (DataCollectorInit d).db_path ≠ defaultDbPath := by
  rintro ⟨d, hd⟩
  exact hd rfl

/-- C9 amended: the Analyzer, Quality Checker, Visualizer and Chart Generator
constructors accept the store path as an explicit configuration value that
overrides the fixed default; the Collector's constructor does not — it always
uses the fixed default location. -/
theorem c9_db_path_amended (p : String) (d : ℤ) :
    (DataAnalyzerInit p).db_path = p ∧
    (DataQualityInit p).db_path = p ∧
    (DataVisualizerInit p).db_path = p ∧
    (ChartGeneratorInit p).db_path = p ∧
    (DataCollectorInit d).db_path = defaultDbPath :=
  ⟨rfl, rfl, rfl, rfl, rfl⟩

/-- C2: across collection runs, `weather_current` keeps at most one row per
city (a later observation for a city replaces the prior one — the filter
group of an upserted city is exactly the new row), while `weather_daily` and
`weather_hourly` grow by exactly the saved payloads' row counts with no
deduplication, so a run saving at least one daily (hourly) row strictly
increases the daily (hourly) row count. -/
theorem c2_store_invariants (items : List CityPayload) (s : Store) :
    (currentAtMostOnePerCity s → currentAtMostOnePerCity (save_to_db items s)) ∧
    (save_to_db items s).weather_daily.length
      = s.weather_daily.length + (items.map dailyCountOf).sum ∧
    (save_to_db items s).weather_hourly.length
      = s.weather_hourly.length + (items.map hourlyCountOf).sum ∧
    ((items.map dailyCountOf).sum ≠ 0 →
      s.weather_daily.length < (save_to_db items s).weather_daily.length) ∧
    ((items.map hourlyCountOf).sum ≠ 0 →
      s.weather_hourly.length < (save_to_db items s).weather_hourly.length) ∧
    (∀ row tbl, (upsertCurrent row tbl).filter (fun r => r.city = row.city) = [row]) := by
  refine ⟨save_to_db_nodup items, save_to_db_daily_length items s,
    save_to_db_hourly_length items s, ?_, ?_, upsertCurrent_lookup⟩
  · intro h
    rw [save_to_db_daily_length]
    omega
  · intro h
    rw [save_to_db_hourly_length]
    omega

/-- A concrete collected payload used to witness C2. -/
def witnessPayload : CityPayload :=
  ⟨"A", some ⟨some 5, some 50, some 3⟩,
    some ⟨[1, 2], [some 10, some 12], [some 1, some 2], [none, none]⟩,
    some ⟨[1], [some 7]⟩, "t"⟩

/-- C2 witness: one concrete run on the fresh store. -/
theorem c2_store_invariants_witness :
    currentAtMostOnePerCity (save_to_db [witnessPayload] emptyStore) ∧
    (save_to_db [witnessPayload] emptyStore).weather_daily.length
      = emptyStore.weather_daily.length + ([witnessPayload].map dailyCountOf).sum ∧
    emptyStore.weather_daily.length
      < (save_to_db [witnessPayload] emptyStore).weather_daily.length ∧
    emptyStore.weather_hourly.length
      < (save_to_db [witnessPayload] emptyStore).weather_hourly.length :=
  ⟨(c2_store_invariants [witnessPayload] emptyStore).1 (by decide),
   (c2_store_invariants [witnessPayload] emptyStore).2.1,
   (c2_store_invariants [witnessPayload] emptyStore).2.2.2.1 (by decide),
   (c2_store_invariants [witnessPayload] emptyStore).2.2.2.2.1 (by decide)⟩

/-- C3: the aggregate quality score equals the clamp into [0,100] of
avg(completeness%) − 2 × total outlier count; the formula is monotonically
non-increasing in the outlier count at fixed completeness; the score always
lies in [0,100]; and with zero cities (empty `weather_current`) the score is
exactly 0. -/
theorem c3_quality_score (s : Store) (a : ℚ) (n m : ℕ) :
    quality_score s = qualityScoreFormula (avg_completeness s) (total_anomalies s) ∧
    (n ≤ m → qualityScoreFormula a m ≤ qualityScoreFormula a n) ∧
    0 ≤ quality_score s ∧ quality_score s ≤ 100 ∧
    (s.weather_current = [] → quality_score s = 0) := by
  refine ⟨rfl, ?_, le_max_left 0 _, ?_, ?_⟩
  · intro h
    have hc : (n : ℚ) ≤ (m : ℚ) := by exact_mod_cast h
    have : a - (m : ℚ) * 2 ≤ a - (n : ℚ) * 2 := by linarith
    exact max_le_max le_rfl (min_le_min le_rfl this)
  · exact max_le (by norm_num) (min_le_left 100 _)
  · intro h
    simp only [quality_score, qualityScoreFormula, avg_completeness, total_anomalies,
      check_completeness, check_outliers, currentCities, groupCities, h]
    norm_num

/-- C3 witness: concrete instances of the monotonicity and zero-cities parts. -/
theorem c3_quality_score_witness :
    qualityScoreFormula 50 2 ≤ qualityScoreFormula 50 1 ∧
    quality_score emptyStore = 0 :=
  ⟨(c3_quality_score emptyStore 50 1 2).2.1 (by norm_num),
   (c3_quality_score emptyStore 50 1 2).2.2.2.2 rfl⟩

/-- C4: every city present in `weather_current` gets a completeness entry
whose `total_records` is its row count T ≥ 1, whose `temperature_filled` is
its non-null temperature count F, and whose `completeness_percent` is
`round(100·F/T, 1)`; the status is `"OK"` exactly when the (rounded)
percentage is ≥ 95. A city with zero rows produces no entry at all, so the
T = 0 case never reaches the division. -/
theorem c4_completeness (s : Store) (c : String) :
    (c ∈ s.weather_current.map (fun r => r.city) →
      (c, completenessEntryOf (currentRowsOf s c)) ∈ check_completeness s ∧
      0 < (currentRowsOf s c).length ∧
      (completenessEntryOf (currentRowsOf s c)).total_records
        = (currentRowsOf s c).length ∧
      (completenessEntryOf (currentRowsOf s c)).temperature_filled
        = ((currentRowsOf s c).filterMap (fun r => r.temperature)).length ∧
      (completenessEntryOf (currentRowsOf s c)).completeness_percent
        = round1 (100 * (((currentRowsOf s c).filterMap (fun r => r.temperature)).length : ℚ)
            / ((currentRowsOf s c).length : ℚ)) ∧
      (completenessStatus (completenessEntryOf (currentRowsOf s c)) = "OK" ↔
        95 ≤ (completenessEntryOf (currentRowsOf s c)).completeness_percent)) ∧
    (c ∉ s.weather_current.map (fun r => r.city) →
      ∀ e, (c, e) ∉ check_completeness s) := by
  constructor
  · intro hc
    refine ⟨?_, ?_, rfl, rfl, ?_, ?_⟩
    · exact List.mem_map_of_mem _ (List.mem_dedup.mpr hc)
    · exact List.length_pos.mpr (filter_city_ne_nil hc)
    · show round1 _ = round1 _
      congr 1
      ring
    · unfold completenessStatus
      split_ifs with h
      · simpa using h
      · constructor
        · intro hOK
          exact absurd hOK (by decide)
        · intro hge
          exact absurd hge h
  · intro hc e he
    rcases List.mem_map.mp he with ⟨c2, hc2, heq⟩
    have : c2 = c := congrArg Prod.fst heq
    exact hc (List.mem_dedup.mp (this ▸ hc2))

/-- A concrete store used to witness C4: city A has one filled-temperature
row, and city Z is absent. -/
def w4Store : Store :=
  ⟨[⟨"A", some 10, none, none, "t"⟩, ⟨"B", none, some 40, none, "t"⟩], [], []⟩

/-- C4 witness: the present-city and absent-city halves at the concrete
store. -/
theorem c4_completeness_witness :
    ("A", completenessEntryOf (currentRowsOf w4Store "A")) ∈ check_completeness w4Store ∧
    (completenessStatus (completenessEntryOf (currentRowsOf w4Store "A")) = "OK" ↔
      95 ≤ (completenessEntryOf (currentRowsOf w4Store "A")).completeness_percent) ∧
    (∀ e, ("Z", e) ∉ check_completeness w4Store) :=
  ⟨((c4_completeness w4Store "A").1 (by decide)).1,
   ((c4_completeness w4Store "A").1 (by decide)).2.2.2.2.2,
   (c4_completeness w4Store "Z").2 (by decide)⟩

/-- C6: every city present in `weather_current` appears in the outliers
result with its aggregate entry; on any group of rows, a stored minimum
below −60 yields an `extreme_cold` flag, a range above 40 yields
`extreme_range`, a maximum above 60 yields `extreme_heat` (the guards are
independent, so several can fire at once), and a group whose temperatures
stay within [−60,60] with range at most 40 carries no flags. -/
theorem c6_outliers (s : Store) (c : String) (rows : List CurrentRow) :
    (c ∈ s.weather_current.map (fun r => r.city) →
      (c, outlierEntryOf (currentRowsOf s c)) ∈ check_outliers s) ∧
    (∀ m, (outlierEntryOf rows).min_temp = some m → m < -60 →
      ("extreme_cold", m) ∈ (outlierEntryOf rows).anomalies) ∧
    (∀ r, (outlierEntryOf rows).temp_range = some r → 40 < r →
      ("extreme_range", r) ∈ (outlierEntryOf rows).anomalies) ∧
    (∀ M, (outlierEntryOf rows).max_temp = some M → 60 < M →
      ("extreme_heat", M) ∈ (outlierEntryOf rows).anomalies) ∧
    ((∀ t ∈ rows.filterMap (fun r => r.temperature), -60 ≤ t ∧ t ≤ 60) →
     (∀ r, (outlierEntryOf rows).temp_range = some r → r ≤ 40) →
      (outlierEntryOf rows).anomalies = []) := by
  refine ⟨?_, ?_, ?_, ?_, ?_⟩
  · intro hc
    exact List.mem_map_of_mem _ (List.mem_dedup.mpr hc)
  · intro m hm hlt
    have hne : m ≠ 0 := by intro h; rw [h] at hlt; norm_num at hlt
    simp only [outlierEntryOf] at hm ⊢
    rw [hm]
    simp [outlierChecks, hne, hlt]
  · intro r hr hlt
    have hne : r ≠ 0 := by intro h; rw [h] at hlt; norm_num at hlt
    simp only [outlierEntryOf] at hr ⊢
    rw [hr]
    simp [outlierChecks, hne, hlt]
  · intro M hM hlt
    have hne : M ≠ 0 := by intro h; rw [h] at hlt; norm_num at hlt
    simp only [outlierEntryOf] at hM ⊢
    rw [hM]
    simp [outlierChecks, hne, hlt]
  · intro hall hrange
    simp only [outlierEntryOf] at hrange ⊢
    cases ht : rows.filterMap (fun r => r.temperature) with
    | nil => simp [sqlMin, sqlMax, outlierChecks]
    | cons x xs =>
      have hmin : sqlMin (x :: xs) = some (xs.foldl min x) := rfl
      have hmax : sqlMax (x :: xs) = some (xs.foldl max x) := rfl
      have hminmem : xs.foldl min x ∈ x :: xs := foldl_min_mem xs x
      have hmaxmem : xs.foldl max x ∈ x :: xs := foldl_max_mem xs x
      have hminb : -60 ≤ xs.foldl min x := (hall _ (ht ▸ hminmem)).1
      have hmaxb : xs.foldl max x ≤ 60 := (hall _ (ht ▸ hmaxmem)).2
      rw [hmin, hmax]
      have hrle : xs.foldl max x - xs.foldl min x ≤ 40 := by
        apply hrange
        rw [ht, hmin, hmax]
      have h1 : ¬(xs.foldl max x - xs.foldl min x ≠ 0 ∧
          40 < xs.foldl max x - xs.foldl min x) := by
        rintro ⟨-, h⟩; linarith
      have h2 : ¬(xs.foldl min x ≠ 0 ∧ xs.foldl min x < -60) := by
        rintro ⟨-, h⟩; linarith
      have h3 : ¬(xs.foldl max x ≠ 0 ∧ 60 < xs.foldl max x) := by
        rintro ⟨-, h⟩; linarith
      simp [outlierChecks, h1, h2, h3]

/-- A concrete store used to witness C6: city A's stored temperature is −70
(extreme cold), city B's is 10 (no flags). -/
def w6Store : Store :=
  ⟨[⟨"A", some (-70), none, none, "t"⟩, ⟨"B", some 10, none, none, "t"⟩], [], []⟩

/-- C6 witness: city A carries the `extreme_cold` flag; city B carries no
flags. -/
theorem c6_outliers_witness :
    ("A", outlierEntryOf (currentRowsOf w6Store "A")) ∈ check_outliers w6Store ∧
    ("extreme_cold", -70) ∈ (outlierEntryOf (currentRowsOf w6Store "A")).anomalies ∧
    (outlierEntryOf (currentRowsOf w6Store "B")).anomalies = [] :=
  ⟨(c6_outliers w6Store "A" []).1 (by decide),
   (c6_outliers w6Store "A" (currentRowsOf w6Store "A")).2.1 (-70) rfl (by norm_num),
   (c6_outliers w6Store "B" (currentRowsOf w6Store "B")).2.2.2.2
     (by decide)
     (by
       intro r hr
       have hrows : currentRowsOf w6Store "B" = [⟨"B", some 10, none, none, "t"⟩] := by
         decide
       rw [hrows] at hr
       norm_num [outlierEntryOf, sqlMin, sqlMax, List.filterMap_cons, List.filterMap_nil] at hr
       linarith)⟩

/-- A concrete store refuting C1: one daily row with both bounds present but
`temp_max = 0`. -/
def c1Store : Store :=
  ⟨[], [⟨"A", 1, some 0, some 5, none, "t"⟩], []⟩

/-- C1 counterexample: with max = 0 and min = 5 both present, the trends
entry has avg = null although (max+min)/2 = 2.5 — Python truthiness treats
the present value 0 as missing, so the claim's "including when either value
equals 0" fails. -/
theorem c1_trends_zero_counterexample :
    analyze_temperature_trends c1Store "A" = [⟨1, some 0, some 5, none⟩] ∧
    (none : Option ℚ) ≠ some ((0 + 5) / 2) := by
  constructor
  · norm_num [analyze_temperature_trends, dailyRowsOf, c1Store, trendEntryOf, trendAvg,
      List.insertionSort, List.orderedInsert, List.filter]
  · simp

/-- C1 amended: every trends entry comes from a `weather_daily` row of the
city (one entry per row), and its avg equals (max+min)/2 whenever both
bounds are present and both are nonzero, while avg is null whenever either
bound is missing or either bound equals 0. -/
theorem c1_trends_avg_amended (s : Store) (c : String) (e : TrendEntry) :
    (e ∈ analyze_temperature_trends s c →
      (∃ row ∈ s.weather_daily, row.city = c ∧ e = trendEntryOf row) ∧
      e.avg = trendAvg e.max e.min ∧
      (∀ M m, e.max = some M → e.min = some m → M ≠ 0 → m ≠ 0 →
        e.avg = some ((M + m) / 2)) ∧
      ((e.max = none ∨ e.min = none ∨ e.max = some 0 ∨ e.min = some 0) →
        e.avg = none)) ∧
    (analyze_temperature_trends s c).length = (dailyRowsOf s c).length := by
  constructor
  · intro he
    rcases List.mem_map.mp he with ⟨row, hrow, heq⟩
    have hrow2 : row ∈ dailyRowsOf s c := (List.mem_insertionSort _).mp hrow
    rcases List.mem_filter.mp hrow2 with ⟨hmem, hcity⟩
    simp only [decide_eq_true_eq] at hcity
    have havg : e.avg = trendAvg e.max e.min := by
      rw [← heq]
      simp [trendEntryOf]
    refine ⟨⟨row, hmem, hcity, heq.symm⟩, havg, ?_, ?_⟩
    · intro M m hM hm hMne hmne
      rw [havg, hM, hm]
      simp only [trendAvg]
      rw [if_pos ⟨hMne, hmne⟩]
    · intro hcase
      rw [havg]
      rcases hcase with h | h | h | h <;> rw [h] <;> simp [trendAvg] <;>
        cases hm : e.min <;> cases hM : e.max <;> simp [trendAvg]
  · rw [analyze_temperature_trends, List.length_map, List.length_insertionSort]

/-- A concrete store used to witness C1's amended theorem. -/
def w1Store : Store := ⟨[], [⟨"A", 1, some 30, some 20, none, "t"⟩], []⟩

/-- C1 witness: the amended statement at a concrete store and entry. -/
theorem c1_trends_avg_amended_witness :
    (∃ row ∈ w1Store.weather_daily, row.city = "A" ∧
      (⟨1, some 30, some 20, some 25⟩ : TrendEntry) = trendEntryOf row) ∧
    (⟨1, some 30, some 20, some 25⟩ : TrendEntry).avg = some ((30 + 20) / 2) := by
  have h := (c1_trends_avg_amended w1Store "A" ⟨1, some 30, some 20, some 25⟩).1
    (by norm_num [analyze_temperature_trends, dailyRowsOf, w1Store, trendEntryOf, trendAvg,
      List.insertionSort, List.orderedInsert, List.filter])
  exact ⟨h.1, h.2.2.1 30 20 rfl rfl (by norm_num) (by norm_num)⟩

/-- The C7 scenario store: one city X whose three daily rows have max
temperatures [30,28,32] and min temperatures [20,19,21] (no precipitation). -/
def c7Store : Store :=
  ⟨[], [⟨"X", 1, some 30, some 20, none, "t"⟩,
        ⟨"X", 2, some 28, some 19, none, "t"⟩,
        ⟨"X", 3, some 32, some 21, none, "t"⟩], []⟩

/-- C7: on the scenario store the insights operation emits exactly one
insight — the HIGH-severity heat insight for X (avg(max) = 30 > 25) — and
the trends operation returns the 3-entry list with avg values 25.0, 23.5,
26.5 in order. -/
theorem c7_end_to_end :
    generate_insights c7Store =
      [⟨"temperature", "X", "HIGH", 30, "Подготовить системы охлаждения"⟩] ∧
    analyze_temperature_trends c7Store "X" =
      [⟨1, some 30, some 20, some 25⟩,
       ⟨2, some 28, some 19, some (47/2)⟩,
       ⟨3, some 32, some 21, some (53/2)⟩] := by
  constructor
  · norm_num [generate_insights, dailyCities, groupCities, dailyRowsOf, c7Store,
      tempInsightsOf, precipRows, sqlAvg, sqlMin, List.filter, List.dedup_cons_of_mem,
      List.dedup_cons_of_not_mem, List.filterMap_cons, List.filterMap_nil, min_def]
  · norm_num [analyze_temperature_trends, dailyRowsOf, c7Store, trendEntryOf, trendAvg,
      List.insertionSort, List.orderedInsert, List.filter]

/-- The C5 failing store: cities A and B each hold one out-of-range
temperature (60 and 70, both above the 50 bound). -/
def c5Store : Store :=
  ⟨[⟨"A", some 60, some 50, none, "t"⟩, ⟨"B", some 70, some 50, none, "t"⟩], [], []⟩

/-- C5 (code bug): on the failing store both A and B have exactly one
invalid temperature row each (`specPerCityInvalid`), but the validity query
lacks `GROUP BY city`, so `check_validity` returns a single aggregate row
attributing the total count 2 to city B alone; city A never appears, and
the empty humidity result contributes a NULL-city key with no issues. -/
theorem c5_validity_misattribution :
    check_validity c5Store = [(some "B", [("temperature", 2)]), (none, [])] ∧
    specPerCityInvalid c5Store "A" = (1, 0) ∧
    specPerCityInvalid c5Store "B" = (1, 0) := by
  decide

/-- A payload whose current observation carries a NULL temperature
(`current.get('temperature_2m')` returned `None`). -/
def nullTempPayload : CityPayload :=
  ⟨"A", some ⟨none, none, none⟩, none, none, "t"⟩

/-- The reachable store refuting C10's range clause. -/
def c10Store : Store := save_to_db [nullTempPayload] emptyStore

/-- C10 counterexample: a reachable store where city A is present but its
aggregate `MAX(temperature) - MIN(temperature)` is NULL, not 0, because the
single row's temperature is NULL — so "range is 0 for every present city"
fails (the claim's other consequences are unharmed, see the amended
theorem). -/
theorem c10_null_range_counterexample :
    Reachable c10Store ∧
    "A" ∈ c10Store.weather_current.map (fun r => r.city) ∧
    (outlierEntryOf (currentRowsOf c10Store "A")).temp_range = none ∧
    (none : Option ℚ) ≠ some 0 :=
  ⟨Reachable.save [nullTempPayload] Reachable.init, by decide, by decide, by decide⟩

/-- C10 amended: in every store reachable through the Collector, each
present city has exactly one `weather_current` row; its aggregate range is
0 when that row's temperature is non-null and NULL when it is null; in
either case the outlier check can never emit an `extreme_range` flag, and
the city's completeness percentage is exactly 100 or exactly 0. -/
theorem c10_current_aggregates_amended (s : Store) (c : String)
    (hs : Reachable s) (hc : c ∈ s.weather_current.map (fun r => r.city)) :
    ∃ r, currentRowsOf s c = [r] ∧ r.city = c ∧
      ((∃ t, r.temperature = some t ∧
          (outlierEntryOf (currentRowsOf s c)).temp_range = some 0 ∧
          (completenessEntryOf (currentRowsOf s c)).completeness_percent = 100) ∨
       (r.temperature = none ∧
          (outlierEntryOf (currentRowsOf s c)).temp_range = none ∧
          (completenessEntryOf (currentRowsOf s c)).completeness_percent = 0)) ∧
      (∀ v, ("extreme_range", v) ∉ (outlierEntryOf (currentRowsOf s c)).anomalies) := by
  have hnodup := reachable_nodup hs
  rcases filter_city_eq_singleton hnodup hc with ⟨r, hr, hrc⟩
  have hrows : currentRowsOf s c = [r] := hr
  refine ⟨r, hrows, hrc, ?_, ?_⟩
  · cases ht : r.temperature with
    | some t =>
      left
      refine ⟨t, rfl, ?_, ?_⟩
      · simp [hrows, outlierEntryOf, List.filterMap_cons, List.filterMap_nil, ht,
          sqlMin, sqlMax, sub_self]
      · simp only [hrows, completenessEntryOf, List.filterMap_cons, List.filterMap_nil,
          ht, List.length_cons, List.length_nil]
        norm_num [round1]
    | none =>
      right
      refine ⟨rfl, ?_, ?_⟩
      · simp [hrows, outlierEntryOf, List.filterMap_cons, List.filterMap_nil, ht,
          sqlMin, sqlMax]
      · simp only [hrows, completenessEntryOf, List.filterMap_cons, List.filterMap_nil,
          ht, List.length_cons, List.length_nil]
        norm_num [round1]
  · intro v hv
    rw [hrows] at hv
    cases ht : r.temperature with
    | some t =>
      simp only [outlierEntryOf, List.filterMap_cons, List.filterMap_nil, ht,
        sqlMin, sqlMax, List.foldl_nil, outlierChecks, sub_self] at hv
      rcases List.mem_append.mp hv with hv | hv
      · rcases List.mem_append.mp hv with hv | hv
        · simp at hv
        · split at hv
          · simp at hv
          · simp at hv
      · split at hv
        · simp at hv
        · simp at hv
    | none =>
      simp only [outlierEntryOf, List.filterMap_cons, List.filterMap_nil, ht,
        sqlMin, sqlMax, outlierChecks] at hv
      simp at hv

/-- A payload with a non-null current temperature used to witness C10. -/
def w10Payload : CityPayload := ⟨"A", some ⟨some 7, none, none⟩, none, none, "t"⟩

/-- C10 witness: the amended statement at a concrete reachable store. -/
theorem c10_current_aggregates_amended_witness :
    ∃ r, currentRowsOf (save_to_db [w10Payload] emptyStore) "A" = [r] ∧ r.city = "A" ∧
      ((∃ t, r.temperature = some t ∧
          (outlierEntryOf (currentRowsOf (save_to_db [w10Payload] emptyStore)
            "A")).temp_range = some 0 ∧
          (completenessEntryOf (currentRowsOf (save_to_db [w10Payload] emptyStore)
            "A")).completeness_percent = 100) ∨
       (r.temperature = none ∧
          (outlierEntryOf (currentRowsOf (save_to_db [w10Payload] emptyStore)
            "A")).temp_range = none ∧
          (completenessEntryOf (currentRowsOf (save_to_db [w10Payload] emptyStore)
            "A")).completeness_percent = 0)) ∧
      (∀ v, ("extreme_range", v) ∉
        (outlierEntryOf (currentRowsOf (save_to_db [w10Payload] emptyStore) "A")).anomalies) :=
  c10_current_aggregates_amended (save_to_db [w10Payload] emptyStore) "A"
    (Reachable.save [w10Payload] Reachable.init) (by decide)
